import Mathlib

/-!
Verification development for the odm-fastapi-backend repository.

Shallow embedding of the task lifecycle manager (`src/utils/__init__.py`,
function `process_task` and its helpers) and of the HTTP route handlers
(`routes.py`).  External effects (the remote WebODM HTTP service, the
archive extraction libraries, the filesystem) are modelled as explicit
environment values supplied to the embedded functions; the functions
themselves are direct translations of the Python source.

Observation granularity: the Python code mutates the shared task record
in place; we snapshot the record after each contiguous block of field
assignments (i.e. at every point where the manager performs I/O, sleeps
or returns), which is the granularity at which the HTTP handlers can
observe the record between manager actions.
-/

namespace ODM

/-!
String primitives.  The Python code uses `.lower()`, `.endswith(...)`
and `.split('.')`; we embed them as executable functions over the
character list of a `String` (ASCII case mapping, which is what the
extension comparisons in this program exercise). -/

def asciiLowerChar (c : Char) : Char :=
  if 'A' ≤ c ∧ c ≤ 'Z' then Char.ofNat (c.toNat + 32) else c

/-- `s.lower()`. -/
def str_lower (s : String) : String :=
  ⟨s.data.map asciiLowerChar⟩

def list_endswith (s suffix : List Char) : Bool :=
  decide (suffix.length ≤ s.length) &&
    decide (suffix = List.drop (s.length - suffix.length) s)

/-- `s.endswith(suffix)`. -/
def str_endswith (s suffix : String) : Bool :=
  list_endswith s.data suffix.data

def splitOnChar (c : Char) : List Char → List (List Char)
| [] => [[]]
| x :: xs =>
  let rest := splitOnChar c xs
  if x = c then [] :: rest
  else
    match rest with
    | [] => [[x]]
    | r :: rs => (x :: r) :: rs

/-- `s.split('.')`. -/
def str_split_dot (s : String) : List String :=
  (splitOnChar '.' s.data).map (fun l => ⟨l⟩)

/-- A directory tree: name, plain files, subdirectories.  Models the
contents of the extraction directory seen by `os.walk`/`os.listdir`. -/
inductive Dir where
| mk (name : String) (files : List String) (subdirs : List Dir)
deriving Repr

def dirName : Dir → String
| .mk n _ _ => n

def dirFiles : Dir → List String
| .mk _ fs _ => fs

def dirSubdirs : Dir → List Dir
| .mk _ _ subs => subs

mutual

def dirSize : Dir → Nat
| .mk _ _ subs => 1 + dirsSize subs

def dirsSize : List Dir → Nat
| [] => 0
| d :: rest => dirSize d + dirsSize rest

end

mutual

/-- `os.walk(path)` in top-down order: yields the directory at `path`
first, then recursively each subdirectory, in order.  Each entry carries
the directory's full path and the directory object (standing for the
`dirs`/`files` components the Python generator yields). -/
def osWalk : String → Dir → List (String × Dir)
| path, .mk n fs subs => (path, .mk n fs subs) :: osWalkChildren path subs

def osWalkChildren : String → List Dir → List (String × Dir)
| _, [] => []
| path, d :: rest => osWalk (path ++ "/" ++ dirName d) d ++ osWalkChildren path rest

end

/-- The tuple of image extensions used throughout the source:
`('.jpg', '.jpeg', '.png', '.tif', '.tiff')`. -/
def image_extensions : List String := [".jpg", ".jpeg", ".png", ".tif", ".tiff"]

/-- `filename.lower().endswith(image_extensions)`. -/
def is_image_file (f : String) : Bool :=
  image_extensions.any (fun e => str_endswith (str_lower f) e)

/-- The "find image folder" loop of `process_task` (utils lines 146-153):

    image_folder = extract_dir
    for root, dirs, files in os.walk(extract_dir):
        for file in files:
            if file.lower().endswith((...)):
                image_folder = root
                break
        break

The outer `break` runs unconditionally at the end of the first `os.walk`
iteration, so only the first walk entry (the extraction root itself) is
ever examined. -/
def find_image_folder (extract_dir : String) (d : Dir) : String × Dir :=
  match osWalk extract_dir d with
  | [] => (extract_dir, d)
  | (root, rd) :: _ =>
    if (dirFiles rd).any is_image_file then (root, rd) else (extract_dir, d)

def queueSize : List (String × Dir) → Nat
| [] => 0
| (_, d) :: rest => dirSize d + queueSize rest

/-- Modelled from the spec: "the store locates the first directory
(breadth-first from the extraction root) containing at least one file
whose extension is one of `.jpg .jpeg .png .tif .tiff`".  Breadth-first
search over the directory tree, returning the first directory (with its
path) holding at least one image file, or `none` when no such directory
exists. -/
def bfs_find : List (String × Dir) → Option (String × Dir)
| [] => none
| (p, .mk n fs subs) :: rest =>
  if fs.any is_image_file then some (p, .mk n fs subs)
  else bfs_find (rest ++ subs.map (fun c => (p ++ "/" ++ dirName c, c)))
termination_by l => queueSize l
decreasing_by
  have happ : ∀ (a b : List (String × Dir)), queueSize (a ++ b) = queueSize a + queueSize b := by
    intro a b
    induction a with
    | nil => simp [queueSize]
    | cons hd tl ih =>
      obtain ⟨q, d⟩ := hd
      simp only [List.cons_append, queueSize, List.append_eq, ih]
      omega
  have hmap : ∀ (l : List Dir) (q : String),
      queueSize (l.map (fun c => (q ++ "/" ++ dirName c, c))) = dirsSize l := by
    intro l q
    induction l with
    | nil => simp [queueSize, dirsSize]
    | cons hd tl ih => simp [queueSize, dirsSize, ih]
  simp only [queueSize, happ, hmap, dirSize]
  omega

/-- Modelled from the spec: image discovery as §4.1 describes it —
breadth-first from the extraction root, first directory containing an
image file. -/
def find_image_folder_spec (extract_dir : String) (d : Dir) : Option (String × Dir) :=
  bfs_find [(extract_dir, d)]

/-- `s.split('.')[-1]` (the split of a nonempty-pattern split is never
empty, so the default is never taken). -/
def last_dot_component (s : String) : String :=
  ((str_split_dot s).getLast?).getD s

/-- Outcome of `zipfile.ZipFile(...).extractall(...)` (an external
library call): success, or an exception with message `msg`. -/
inductive ZipOutcome where
| ok
| raiseErr (msg : String)
deriving Repr, DecidableEq

/-- Outcome of `subprocess.run(['unrar', ...])`: exit code 0, a nonzero
exit with the given stderr, or `FileNotFoundError` (unrar missing). -/
inductive RarOutcome where
| ok
| exitErr (stderr : String)
| toolMissing
deriving Repr, DecidableEq

/-- `extract_archive(archive_path, extract_dir)` from utils lines
107-131.  Branches on the lowercased last dot-component of the path;
exceptions raised inside the `try` body are wrapped by the
`except Exception` clause as "Extraction failed: ...", while the
exception raised from the `except FileNotFoundError` clause propagates
unwrapped (a `raise` inside an `except` clause is not re-caught by the
later clauses of the same `try`). -/
def extract_archive (archive_path : String) (zipRes : ZipOutcome) (rarRes : RarOutcome) :
    Except String Bool :=
  let file_extension := last_dot_component (str_lower archive_path)
  if file_extension = "zip" then
    match zipRes with
    | .ok => .ok true
    | .raiseErr m => .error ("Extraction failed: " ++ m)
  else if file_extension = "rar" then
    match rarRes with
    | .ok => .ok true
    | .exitErr s => .error ("Extraction failed: RAR extraction failed: " ++ s)
    | .toolMissing =>
      .error "unrar is not installed. Please install: apt-get install unrar or brew install unrar"
  else
    .error ("Extraction failed: Unsupported archive format: " ++ file_extension)

/-- One task record of the in-memory registry `tasks` (a Python dict
per task).  `Option` fields model dict keys that are only set later
(`webodm_task_id` at upload success, `output_file` at completion). -/
structure TaskRecord where
  task_id : String
  status : String
  progress : Nat
  message : String
  filename : String
  created_at : Nat
  webodm_task_id : Option String
  output_file : Option String
deriving Repr, DecidableEq

/-- The record created by the upload route (`routes.py` lines 38-45). -/
def initial_record (task_id filename : String) (created_at : Nat) : TaskRecord :=
  { task_id := task_id
    status := "queued"
    progress := 0
    message := "Task queued"
    filename := filename
    created_at := created_at
    webodm_task_id := none
    output_file := none }

/-- What `check_webodm_task_status` returns on a 200 response:
`{'status_code': data['status']['code'], 'progress': data.get('progress', 0)}`. -/
structure PollResult where
  status_code : Int
  progress : Nat
deriving Repr, DecidableEq

/-- Response of the remote `task/new` POST inside
`upload_images_to_webodm`: a 200 with the json's `uuid` field (possibly
absent), a non-200 status, or a raised exception with message text. -/
inductive HttpPost where
| ok (uuid : Option String)
| status (code : Nat)
| exn (msg : String)
deriving Repr, DecidableEq

/-- Response of the remote `task/<id>/info` GET inside
`check_webodm_task_status`. -/
inductive HttpGetInfo where
| ok (code : Int) (progress : Nat)
| status (code : Nat)
| exn
deriving Repr, DecidableEq

/-- Response of the remote `task/<id>/download/all.zip` GET inside
`download_from_webodm`. -/
inductive HttpGetDownload where
| ok
| status (code : Nat)
| exn
deriving Repr, DecidableEq

/-- `upload_images_to_webodm(image_folder, task_name)` (utils lines
24-69): filters the folder listing by image extension; empty list yields
`(None, "No images found")`; otherwise the POST's outcome decides the
result: 200 yields `(json uuid, None)`, non-200 yields
`(None, "Error: <code>")`, an exception yields `(None, str(e))`. -/
def upload_images_to_webodm (folder_files : List String) (resp : HttpPost) :
    Option String × Option String :=
  let files_list := folder_files.filter is_image_file
  if files_list.isEmpty then
    (none, some "No images found")
  else
    match resp with
    | .ok uuid => (uuid, none)
    | .status code => (none, some ("Error: " ++ toString code))
    | .exn m => (none, some m)

/-- `check_webodm_task_status` (utils lines 72-87): 200 yields the
status code and progress; a non-200 response or an exception yields
`None`. -/
def check_webodm_task_status : HttpGetInfo → Option PollResult
| .ok code progress => some ⟨code, progress⟩
| .status _ => none
| .exn => none

/-- `download_from_webodm` (utils lines 90-104): `True` on a 200
response written to disk, `False` on any other response or exception. -/
def download_from_webodm : HttpGetDownload → Bool
| .ok => true
| .status _ => false
| .exn => false

/-- Python truthiness of the `error` string returned by
`upload_images_to_webodm` (`if error:`): truthy iff present and
nonempty. -/
def str_truthy (o : Option String) : Bool :=
  !((o.getD "").data.isEmpty)

/-- The external world as seen by one `process_task` run: the outcomes
of the extraction library calls, the extracted directory tree, and the
remote service's successive responses. -/
structure ProcEnv where
  zipRes : ZipOutcome
  rarRes : RarOutcome
  tree : Dir
  uploadResp : HttpPost
  polls : List HttpGetInfo
  download : HttpGetDownload
deriving Repr

/-- Which of the two cleanup deletions at the end of the normal flow
(utils lines 213-214: `shutil.rmtree(extract_dir)`,
`os.remove(archive_path)`) actually ran. -/
structure Flags where
  extract_dir_removed : Bool
  archive_removed : Bool
deriving Repr, DecidableEq

def OUTPUT_DIR : String := "outputs"
def TEMP_DIR : String := "temp"
def UPLOAD_DIR : String := "uploads"

/-- Result of one iteration of the polling loop body. -/
structure StepOut where
  t : TaskRecord
  snaps : List TaskRecord
  broke : Bool
deriving Repr, DecidableEq

/-- One iteration of the `while True` polling loop (utils lines
172-211), given the already-computed `check_webodm_task_status` result.
An absent result sleeps and continues with no record change; otherwise
`progress` is written from the poll, then the status code decides:
40 moves to `downloading` and immediately downloads (success yields
`completed` with progress forced to 100 and `output_file` recorded,
failure yields `failed`), 30 and 50 yield `failed`, anything else
leaves the status alone and continues polling. -/
def poll_step (task_id : String) (dOk : Bool) (t : TaskRecord) (res : Option PollResult) :
    StepOut :=
  match res with
  | none => ⟨t, [], false⟩
  | some sd =>
    if sd.status_code = 40 then
      let t1 := { t with progress := sd.progress
                         status := "downloading"
                         message := "Downloading results..." }
      let output_file := OUTPUT_DIR ++ "/" ++ task_id ++ ".zip"
      if dOk then
        let t2 := { t1 with status := "completed"
                            message := "Complete!"
                            output_file := some output_file
                            progress := 100 }
        ⟨t2, [t1, t2], true⟩
      else
        let t2 := { t1 with status := "failed", message := "Download failed" }
        ⟨t2, [t1, t2], true⟩
    else if sd.status_code = 30 then
      let t1 := { t with progress := sd.progress
                         status := "failed"
                         message := "Processing failed" }
      ⟨t1, [t1], true⟩
    else if sd.status_code = 50 then
      let t1 := { t with progress := sd.progress
                         status := "failed"
                         message := "Task canceled" }
      ⟨t1, [t1], true⟩
    else
      let t1 := { t with progress := sd.progress }
      ⟨t1, [t1], false⟩

/-- Outcome of the whole polling loop: the current record, the
accumulated snapshot trace, and whether the loop exited via `break`
(`broke = false` means the supplied poll responses ran out with the
loop still going — the Python loop would keep polling forever). -/
structure LoopOut where
  t : TaskRecord
  tr : List TaskRecord
  broke : Bool
deriving Repr, DecidableEq

/-- The `while True` polling loop, iterated over the finite list of
remote responses provided by the environment. -/
def poll_loop (task_id : String) (dOk : Bool) :
    List (Option PollResult) → TaskRecord → List TaskRecord → LoopOut
| [], t, tr => ⟨t, tr, false⟩
| r :: rest, t, tr =>
  let s := poll_step task_id dOk t r
  if s.broke then ⟨s.t, tr ++ s.snaps, true⟩
  else poll_loop task_id dOk rest s.t (tr ++ s.snaps)

/-- Result of the `try` body of `process_task` (utils lines 136-214):
either the body ran to the end (`finished`, with the cleanup flags it
produced), or the supplied poll responses were exhausted with the loop
still `polling`, or an exception was `raised` carrying message `e` and
the record state at the raise point. -/
inductive BodyResult where
| finished (t : TaskRecord) (fl : Flags) (tr : List TaskRecord)
| polling (t : TaskRecord) (fl : Flags) (tr : List TaskRecord)
| raised (e : String) (t : TaskRecord) (fl : Flags) (tr : List TaskRecord)
deriving Repr, DecidableEq

/-- Utils lines 137-138: status `extracting`. -/
def rec_extracting (t : TaskRecord) : TaskRecord :=
  { t with status := "extracting", message := "Extracting images..." }

/-- Utils lines 158-159: status `uploading`, message with the image
count. -/
def rec_uploading (t : TaskRecord) (n : Nat) : TaskRecord :=
  { t with status := "uploading", message := "Uploading " ++ toString n ++ " images..." }

/-- Utils lines 164-165: upload error fails the task with the error
string as message. -/
def rec_upload_failed (t : TaskRecord) (err : String) : TaskRecord :=
  { t with status := "failed", message := err }

/-- Utils lines 168-170: remote id recorded, status `processing`. -/
def rec_processing (t : TaskRecord) (wid : Option String) : TaskRecord :=
  { t with webodm_task_id := wid, status := "processing", message := "Processing orthomosaic..." }

/-- Utils lines 217-218: the `except` handler overwrites status and
message. -/
def rec_crashed (t : TaskRecord) (e : String) : TaskRecord :=
  { t with status := "failed", message := e }

/-- The files of the folder chosen by the image-folder loop (utils
lines 146-153), i.e. what `os.listdir(image_folder)` returns. -/
def discovered_files (task_id : String) (env : ProcEnv) : List String :=
  dirFiles (find_image_folder (TEMP_DIR ++ "/" ++ task_id) env.tree).2

/-- Utils lines 155-156: the count of image files in the chosen
folder. -/
def image_count (task_id : String) (env : ProcEnv) : Nat :=
  (discovered_files task_id env).countP is_image_file

/-- Utils line 161: the `(webodm_task_id, error)` pair returned by
`upload_images_to_webodm(image_folder, ...)`. -/
def upload_outcome (task_id : String) (env : ProcEnv) : Option String × Option String :=
  upload_images_to_webodm (discovered_files task_id env) env.uploadResp

/-- The record with which the polling loop is entered. -/
def loop_entry_record (task_id : String) (env : ProcEnv) (t0 : TaskRecord) : TaskRecord :=
  rec_processing (rec_uploading (rec_extracting t0) (image_count task_id env))
    (upload_outcome task_id env).1

/-- The snapshot trace accumulated before the polling loop starts. -/
def loop_entry_trace (task_id : String) (env : ProcEnv) (t0 : TaskRecord) : List TaskRecord :=
  [t0, rec_extracting t0,
   rec_uploading (rec_extracting t0) (image_count task_id env),
   loop_entry_record task_id env t0]

/-- The polling loop (utils lines 172-211) as run by `process_task`. -/
def loop_result (task_id : String) (env : ProcEnv) (t0 : TaskRecord) : LoopOut :=
  poll_loop task_id (download_from_webodm env.download)
    (env.polls.map check_webodm_task_status)
    (loop_entry_record task_id env t0) (loop_entry_trace task_id env t0)

/-- The `try` body of `process_task`, translated block by block:

1. status `extracting` (lines 137-138);
2. `extract_archive` — an error raises (line 144);
3. the image-folder loop and the image count (lines 146-156);
4. status `uploading` with the count in the message (lines 158-159);
5. `upload_images_to_webodm`; a truthy error string fails the task and
   returns early, skipping cleanup (lines 161-166);
6. `webodm_task_id` recorded, status `processing` (lines 168-170);
7. the polling loop (lines 172-211);
8. cleanup of the extraction directory and the archive, reached only
   when the loop exits via `break` (lines 213-214). -/
def process_task_body (task_id archive_path : String) (env : ProcEnv) (t0 : TaskRecord) :
    BodyResult :=
  match extract_archive archive_path env.zipRes env.rarRes with
  | .error e => .raised e (rec_extracting t0) ⟨false, false⟩ [t0, rec_extracting t0]
  | .ok _ =>
    let t2 := rec_uploading (rec_extracting t0) (image_count task_id env)
    let up := upload_outcome task_id env
    if str_truthy up.2 then
      .finished (rec_upload_failed t2 ((up.2).getD "")) ⟨false, false⟩
        [t0, rec_extracting t0, t2, rec_upload_failed t2 ((up.2).getD "")]
    else
      let lo := loop_result task_id env t0
      if lo.broke then .finished lo.t ⟨true, true⟩ lo.tr
      else .polling lo.t ⟨false, false⟩ lo.tr

/-- Observable outcome of one `process_task` run: final record, the
snapshot trace, the cleanup flags, and whether the Python function
returned (`finished = false` means it is still inside the polling
loop after the supplied responses). -/
structure RunResult where
  record : TaskRecord
  trace : List TaskRecord
  flags : Flags
  finished : Bool
deriving Repr, DecidableEq

/-- `process_task` (utils lines 134-218): the `try` body wrapped in the
single top-level `except Exception` handler, which overwrites the
record's status with `failed` and its message with the exception's
text. -/
def process_task (task_id archive_path : String) (env : ProcEnv) (t0 : TaskRecord) :
    RunResult :=
  match process_task_body task_id archive_path env t0 with
  | .finished t fl tr => ⟨t, tr, fl, true⟩
  | .polling t fl tr => ⟨t, tr, fl, false⟩
  | .raised e t fl tr => ⟨rec_crashed t e, tr ++ [rec_crashed t e], fl, true⟩

/-- The in-memory registry `tasks`, keyed by task id.  Insertion order
is preserved, as in a Python dict. -/
abbrev Registry := List (String × TaskRecord)

/-- `task_id in tasks` / `tasks[task_id]`. -/
def lookup (reg : Registry) (task_id : String) : Option TaskRecord :=
  (List.find? (fun p => p.1 = task_id) reg).map (fun p => p.2)

/-- `TaskResponse` pydantic schema (schemas lines 9-12). -/
structure TaskResponse where
  task_id : String
  status : String
  message : String
deriving Repr, DecidableEq

/-- `TaskStatus` pydantic schema (schemas lines 14-19).  Note it has no
field for the remote task id or the output path. -/
structure TaskStatus where
  task_id : String
  status : String
  progress : Nat
  message : String
  download_url : Option String
deriving Repr, DecidableEq

/-- Observable effects of one call to the upload route: the raised
`HTTPException` if any, the path of the archive written to disk if any,
the registry afterwards, and the returned `TaskResponse` if any. -/
structure UploadResult where
  error : Option (Nat × String)
  saved_path : Option String
  registry : Registry
  response : Option TaskResponse

/-- `upload_images` route (routes lines 19-53): rejects a filename not
ending (case-insensitively) in `.zip`/`.rar` with a 400 before the task
id is generated and before anything is written; otherwise saves the
archive as `uploads/<task_id>.<ext>`, registers the `queued` record and
schedules `process_task`.  `new_id` models the fresh `uuid4`, `now` the
`time.time()` timestamp. -/
def upload_images (reg : Registry) (filename : String) (new_id : String) (now : Nat) :
    UploadResult :=
  if !(str_endswith (str_lower filename) ".zip" || str_endswith (str_lower filename) ".rar") then
    { error := some (400, "Only ZIP and RAR files are supported")
      saved_path := none
      registry := reg
      response := none }
  else
    let file_extension := last_dot_component (str_lower filename)
    let archive_path := UPLOAD_DIR ++ "/" ++ new_id ++ "." ++ file_extension
    { error := none
      saved_path := some archive_path
      registry := reg ++ [(new_id, initial_record new_id filename now)]
      response := some ⟨new_id, "queued", "Task created. Check /status/\x7btask_id\x7d"⟩ }

/-- `get_task_status` route (routes lines 56-71): 404 for an unknown
id; otherwise projects the record onto the `TaskStatus` schema, with a
download reference only when the status is `completed`. -/
def get_task_status (reg : Registry) (task_id : String) : Except (Nat × String) TaskStatus :=
  match lookup reg task_id with
  | none => .error (404, "Task not found")
  | some task =>
    .ok { task_id := task_id
          status := task.status
          progress := task.progress
          message := task.message
          download_url :=
            if task.status = "completed" then some ("/download/" ++ task_id) else none }

/-- Response of the download route: an `HTTPException` or a
`FileResponse`. -/
inductive DownloadResp where
| httpError (code : Nat) (detail : String)
| fileResponse (path : String) (media_type : String) (filename : String)
deriving Repr, DecidableEq

/-- `download_result` route (routes lines 74-94).  `fs` is the set of
paths present on disk (`os.path.exists`). -/
def download_result (reg : Registry) (fs : List String) (task_id : String) : DownloadResp :=
  match lookup reg task_id with
  | none => .httpError 404 "Task not found"
  | some task =>
    if task.status ≠ "completed" then
      .httpError 400 ("Status: " ++ task.status)
    else
      match task.output_file with
      | none => .httpError 404 "File not found"
      | some output_file =>
        if fs.contains output_file then
          .fileResponse output_file "application/zip" ("orthomosaic_" ++ task_id ++ ".zip")
        else
          .httpError 404 "File not found"

/-- Response of the list route. -/
structure ListTasksResponse where
  total : Nat
  tasks : List TaskRecord
deriving Repr, DecidableEq

/-- `list_tasks` route (routes lines 97-103): returns the raw registry
values verbatim together with their count. -/
def list_tasks (reg : Registry) : ListTasksResponse :=
  { total := reg.length, tasks := reg.map (fun p => p.2) }

/-! ### Concrete inputs used by counterexamples and witnesses -/

/-- An extraction result whose only images sit in a subdirectory
`images/` below the extraction root; the root itself holds no files. -/
def c1_tree : Dir := .mk "t1" [] [.mk "images" ["photo1.jpg"] []]

/-- A directory with one image at the root. -/
def flat_tree : Dir := .mk "t" ["a.jpg"] []

/-- An empty extraction result (no files anywhere). -/
def empty_tree : Dir := .mk "t" [] []

/-- Environment whose extraction produced `c1_tree`: the archive's
images all sit below the extraction root. -/
def env_c1 : ProcEnv :=
  { zipRes := .ok, rarRes := .ok, tree := c1_tree
    uploadResp := .ok (some "w1"), polls := [], download := .ok }

/-- A registry record of a completed task with its output recorded. -/
def c9_record : TaskRecord :=
  { task_id := "a", status := "completed", progress := 100, message := "Complete!"
    filename := "x.zip", created_at := 0, webodm_task_id := some "w"
    output_file := some "outputs/a.zip" }

/-- Environment for a run whose upload finds no images: extraction
succeeds but the archive was empty. -/
def env_no_images : ProcEnv :=
  { zipRes := .ok, rarRes := .ok, tree := empty_tree
    uploadResp := .ok (some "w1"), polls := [], download := .ok }

/-- Environment whose remote reports progress 50 and then 30 with a
non-terminal status code. -/
def env_decreasing : ProcEnv :=
  { zipRes := .ok, rarRes := .ok, tree := flat_tree
    uploadResp := .ok (some "w1")
    polls := [.ok 20 50, .ok 20 30], download := .ok }

/-- Environment for a failing zip extraction. -/
def env_bad_zip : ProcEnv :=
  { zipRes := .raiseErr "File is not a zip file", rarRes := .ok, tree := flat_tree
    uploadResp := .ok (some "w1"), polls := [], download := .ok }

/-- Environment for a successful end-to-end run: one image, two
transient poll absences, then a running code, then the completed code,
then a successful download. -/
def env_success : ProcEnv :=
  { zipRes := .ok, rarRes := .ok, tree := flat_tree
    uploadResp := .ok (some "w1")
    polls := [.exn, .status 500, .ok 20 40, .ok 40 95], download := .ok }

/-- The record of a completed task, as produced by `env_success`. -/
def completed_record : TaskRecord :=
  (process_task "tid1" "uploads/tid1.zip" env_success
    (initial_record "tid1" "photos.zip" 5)).record

/-- The progress values the remote reported, in order, over the
successful polls of a response sequence. -/
def polled_progress (polls : List (Option PollResult)) : List Nat :=
  polls.filterMap (fun o => o.map (fun p => p.progress))

/-- The progress values of the trace snapshots whose status is
`processing`, in order. -/
def proc_progress (tr : List TaskRecord) : List Nat :=
  (tr.filter (fun r => r.status == "processing")).map (fun r => r.progress)

/-!
## Helper lemmas
-/

/-- The polling loop only ever appends to the snapshot trace. -/
theorem poll_loop_trace_ext (tid : String) (dOk : Bool) :
    ∀ (polls : List (Option PollResult)) (t : TaskRecord) (tr : List TaskRecord),
      ∃ s, (poll_loop tid dOk polls t tr).tr = tr ++ s := by
  intro polls
  induction polls with
  | nil => intro t tr; exact ⟨[], by simp [poll_loop]⟩
  | cons r rest ih =>
    intro t tr
    simp only [poll_loop]
    split
    · exact ⟨(poll_step tid dOk t r).snaps, rfl⟩
    · obtain ⟨s2, h⟩ := ih (poll_step tid dOk t r).t (tr ++ (poll_step tid dOk t r).snaps)
      exact ⟨(poll_step tid dOk t r).snaps ++ s2, by rw [h, List.append_assoc]⟩

/-- Any number of consecutive absent poll results leaves the loop state
completely unchanged and the loop still running. -/
theorem poll_loop_replicate_none (tid : String) (dOk : Bool) :
    ∀ (n : Nat) (t : TaskRecord) (tr : List TaskRecord),
      poll_loop tid dOk (List.replicate n none) t tr = ⟨t, tr, false⟩ := by
  intro n
  induction n with
  | zero => intro t tr; simp [poll_loop]
  | succ m ih =>
    intro t tr
    simp [List.replicate, poll_loop, poll_step, ih]

/-- Every snapshot emitted by one loop iteration from a `processing`
record with no output file satisfies the record invariant (output file
present iff `completed`, and `completed` implies progress 100), and if
the iteration continues the current record is again `processing` with
no output file. -/
theorem poll_step_inv (tid : String) (dOk : Bool) (t : TaskRecord) (res : Option PollResult)
    (ht : t.status = "processing") (ho : t.output_file = none) :
    (∀ r ∈ (poll_step tid dOk t res).snaps,
       (r.output_file.isSome = true ↔ r.status = "completed") ∧
       (r.status = "completed" → r.progress = 100)) ∧
    ((poll_step tid dOk t res).broke = false →
       (poll_step tid dOk t res).t.status = "processing" ∧
       (poll_step tid dOk t res).t.output_file = none) := by
  cases res with
  | none => simp [poll_step, ht, ho]
  | some sd =>
    simp only [poll_step]
    split_ifs with h40 hdOk h30 h50 <;> simp_all [ho, ht]

/-- The record invariant holds across the whole polling loop trace. -/
theorem poll_loop_inv (tid : String) (dOk : Bool) :
    ∀ (polls : List (Option PollResult)) (t : TaskRecord) (tr : List TaskRecord),
      t.status = "processing" → t.output_file = none →
      (∀ r ∈ tr,
        (r.output_file.isSome = true ↔ r.status = "completed") ∧
        (r.status = "completed" → r.progress = 100)) →
      ∀ r ∈ (poll_loop tid dOk polls t tr).tr,
        (r.output_file.isSome = true ↔ r.status = "completed") ∧
        (r.status = "completed" → r.progress = 100) := by
  intro polls
  induction polls with
  | nil => intro t tr ht ho htr; simpa [poll_loop] using htr
  | cons res rest ih =>
    intro t tr ht ho htr
    have hstep := poll_step_inv tid dOk t res ht ho
    have htr2 : ∀ r ∈ tr ++ (poll_step tid dOk t res).snaps,
        (r.output_file.isSome = true ↔ r.status = "completed") ∧
        (r.status = "completed" → r.progress = 100) := by
      intro r hr
      rcases List.mem_append.mp hr with h | h
      · exact htr r h
      · exact hstep.1 r h
    simp only [poll_loop]
    split
    · exact htr2
    · next hbroke =>
      have hb : (poll_step tid dOk t res).broke = false := by
        revert hbroke
        cases (poll_step tid dOk t res).broke <;> simp
      exact ih _ _ (hstep.2 hb).1 (hstep.2 hb).2 htr2

/-- `process_task` when the extraction raises: the handler's failed
record is appended and no cleanup runs. -/
theorem process_task_extract_error (tid ap : String) (env : ProcEnv) (t0 : TaskRecord)
    (e : String) (h : extract_archive ap env.zipRes env.rarRes = .error e) :
    process_task tid ap env t0 =
      ⟨rec_crashed (rec_extracting t0) e,
       [t0, rec_extracting t0, rec_crashed (rec_extracting t0) e], ⟨false, false⟩, true⟩ := by
  unfold process_task process_task_body
  rw [h]
  rfl

/-- `process_task` when the upload reports a truthy error string: the
body returns early with a failed record and no cleanup runs. -/
theorem process_task_upload_error (tid ap : String) (env : ProcEnv) (t0 : TaskRecord)
    (b : Bool) (hE : extract_archive ap env.zipRes env.rarRes = .ok b)
    (hT : str_truthy (upload_outcome tid env).2 = true) :
    process_task tid ap env t0 =
      ⟨rec_upload_failed (rec_uploading (rec_extracting t0) (image_count tid env))
         (((upload_outcome tid env).2).getD ""),
       [t0, rec_extracting t0, rec_uploading (rec_extracting t0) (image_count tid env),
        rec_upload_failed (rec_uploading (rec_extracting t0) (image_count tid env))
          (((upload_outcome tid env).2).getD "")],
       ⟨false, false⟩, true⟩ := by
  unfold process_task process_task_body
  rw [hE]
  simp [hT]

/-- `process_task` when the polling loop exits via `break`: both
cleanup deletions run. -/
theorem process_task_loop_broke (tid ap : String) (env : ProcEnv) (t0 : TaskRecord)
    (b : Bool) (hE : extract_archive ap env.zipRes env.rarRes = .ok b)
    (hT : str_truthy (upload_outcome tid env).2 = false)
    (hB : (loop_result tid env t0).broke = true) :
    process_task tid ap env t0 =
      ⟨(loop_result tid env t0).t, (loop_result tid env t0).tr, ⟨true, true⟩, true⟩ := by
  unfold process_task process_task_body
  rw [hE]
  simp [hT, hB]

/-- `process_task` when the supplied poll responses run out with the
loop still going: no cleanup, function still inside the loop. -/
theorem process_task_loop_stuck (tid ap : String) (env : ProcEnv) (t0 : TaskRecord)
    (b : Bool) (hE : extract_archive ap env.zipRes env.rarRes = .ok b)
    (hT : str_truthy (upload_outcome tid env).2 = false)
    (hB : (loop_result tid env t0).broke = false) :
    process_task tid ap env t0 =
      ⟨(loop_result tid env t0).t, (loop_result tid env t0).tr, ⟨false, false⟩, false⟩ := by
  unfold process_task process_task_body
  rw [hE]
  simp [hT, hB]

/-- The record invariant (output file present iff `completed`,
`completed` implies progress 100) holds for every snapshot of every run
started from a freshly created record. -/
theorem process_task_trace_inv (tid ap fname : String) (now : Nat) (env : ProcEnv) :
    ∀ r ∈ (process_task tid ap env (initial_record tid fname now)).trace,
      (r.output_file.isSome = true ↔ r.status = "completed") ∧
      (r.status = "completed" → r.progress = 100) := by
  cases hE : extract_archive ap env.zipRes env.rarRes with
  | error e =>
    rw [process_task_extract_error tid ap env _ e hE]
    intro r hr
    simp at hr
    rcases hr with h | h | h <;> subst h <;>
      simp [initial_record, rec_extracting, rec_crashed]
  | ok b =>
    by_cases hT : str_truthy (upload_outcome tid env).2
    · rw [process_task_upload_error tid ap env _ b hE hT]
      intro r hr
      simp at hr
      rcases hr with h | h | h | h <;> subst h <;>
        simp [initial_record, rec_extracting, rec_uploading, rec_upload_failed]
    · have hT' : str_truthy (upload_outcome tid env).2 = false := by
        revert hT; cases str_truthy (upload_outcome tid env).2 <;> simp
      have hentry : ∀ r ∈ loop_entry_trace tid env (initial_record tid fname now),
          (r.output_file.isSome = true ↔ r.status = "completed") ∧
          (r.status = "completed" → r.progress = 100) := by
        intro r hr
        simp [loop_entry_trace] at hr
        rcases hr with h | h | h | h <;> subst h <;>
          simp [initial_record, rec_extracting, rec_uploading, loop_entry_record, rec_processing]
      have hmain : ∀ r ∈ (loop_result tid env (initial_record tid fname now)).tr,
          (r.output_file.isSome = true ↔ r.status = "completed") ∧
          (r.status = "completed" → r.progress = 100) := by
        unfold loop_result
        exact poll_loop_inv tid (download_from_webodm env.download)
          (env.polls.map check_webodm_task_status) _ _
          (by simp [loop_entry_record, rec_processing])
          (by simp [loop_entry_record, rec_processing, rec_uploading, rec_extracting,
                    initial_record])
          hentry
      by_cases hB : (loop_result tid env (initial_record tid fname now)).broke
      · rw [process_task_loop_broke tid ap env _ b hE hT' hB]
        exact hmain
      · have hB' : (loop_result tid env (initial_record tid fname now)).broke = false := by
          revert hB; cases (loop_result tid env (initial_record tid fname now)).broke <;> simp
        rw [process_task_loop_stuck tid ap env _ b hE hT' hB']
        exact hmain


theorem proc_progress_append (a b : List TaskRecord) :
    proc_progress (a ++ b) = proc_progress a ++ proc_progress b := by
  simp [proc_progress, List.filter_append]

theorem poll_step_chain (tid : String) (dOk : Bool) (t : TaskRecord) (sd : PollResult) :
    ((poll_step tid dOk t (some sd)).broke = true →
       proc_progress (poll_step tid dOk t (some sd)).snaps = []) ∧
    ((poll_step tid dOk t (some sd)).broke = false →
       (poll_step tid dOk t (some sd)).snaps = [{ t with progress := sd.progress }] ∧
       (poll_step tid dOk t (some sd)).t = { t with progress := sd.progress }) := by
  simp only [poll_step]
  split_ifs with h40 hdOk h30 h50 <;> simp [proc_progress]

theorem poll_loop_chain (tid : String) (dOk : Bool) :
    ∀ (polls : List (Option PollResult)) (t : TaskRecord) (tr : List TaskRecord),
      t.status = "processing" →
      List.Chain' (· ≤ ·) (proc_progress tr) →
      (proc_progress tr).getLast? = some t.progress →
      List.Chain' (· ≤ ·) (t.progress :: polled_progress polls) →
      List.Chain' (· ≤ ·) (proc_progress (poll_loop tid dOk polls t tr).tr) := by
  intro polls
  induction polls with
  | nil => intro t tr _ htr _ _; simpa [poll_loop] using htr
  | cons res rest ih =>
    intro t tr ht htr hlast hch
    cases res with
    | none =>
      have : poll_loop tid dOk (none :: rest) t tr = poll_loop tid dOk rest t tr := by
        simp [poll_loop, poll_step]
      rw [this]
      refine ih t tr ht htr hlast ?_
      simpa [polled_progress] using hch
    | some sd =>
      have hpl : polled_progress (some sd :: rest) = sd.progress :: polled_progress rest := by
        simp [polled_progress]
      rw [hpl] at hch
      have hle : t.progress ≤ sd.progress := (List.chain'_cons.mp hch).1
      have hch2 : List.Chain' (· ≤ ·) (sd.progress :: polled_progress rest) :=
        (List.chain'_cons.mp hch).2
      have hstep := poll_step_chain tid dOk t sd
      cases hbr : (poll_step tid dOk t (some sd)).broke with
      | true =>
        have : poll_loop tid dOk (some sd :: rest) t tr =
            ⟨(poll_step tid dOk t (some sd)).t,
             tr ++ (poll_step tid dOk t (some sd)).snaps, true⟩ := by
          simp [poll_loop, hbr]
        rw [this]
        simp only [proc_progress_append, hstep.1 hbr, List.append_nil]
        exact htr
      | false =>
        obtain ⟨hsnaps, hstept⟩ := hstep.2 hbr
        have : poll_loop tid dOk (some sd :: rest) t tr =
            poll_loop tid dOk rest (poll_step tid dOk t (some sd)).t
              (tr ++ (poll_step tid dOk t (some sd)).snaps) := by
          simp [poll_loop, hbr]
        rw [this, hstept, hsnaps]
        have ht1 : ({ t with progress := sd.progress } : TaskRecord).status = "processing" := ht
        have hproc1 : proc_progress [{ t with progress := sd.progress }] = [sd.progress] := by
          simp [proc_progress, ht]
        refine ih _ _ ht1 ?_ ?_ ?_
        · rw [proc_progress_append, hproc1]
          rw [List.chain'_append]
          refine ⟨htr, List.chain'_singleton _, ?_⟩
          intro x hx y hy
          rw [hlast] at hx
          simp at hx hy
          subst hx; subst hy
          exact hle
        · rw [proc_progress_append, hproc1]
          simp [List.getLast?_concat]
        · simpa using hch2


/-- If the remote's successively reported progress values are
non-decreasing, the progress values of the `processing` snapshots of a
run are non-decreasing. -/
theorem process_task_chain (tid ap fname : String) (now : Nat) (env : ProcEnv)
    (h : List.Chain' (· ≤ ·) (polled_progress (env.polls.map check_webodm_task_status))) :
    List.Chain' (· ≤ ·)
      (proc_progress (process_task tid ap env (initial_record tid fname now)).trace) := by
  cases hE : extract_archive ap env.zipRes env.rarRes with
  | error e =>
    rw [process_task_extract_error tid ap env _ e hE]
    simp [proc_progress, initial_record, rec_extracting, rec_crashed, List.filter]
  | ok b =>
    by_cases hT : str_truthy (upload_outcome tid env).2
    · rw [process_task_upload_error tid ap env _ b hE hT]
      simp [proc_progress, initial_record, rec_extracting, rec_uploading, rec_upload_failed,
            List.filter]
    · have hT' : str_truthy (upload_outcome tid env).2 = false := by
        revert hT; cases str_truthy (upload_outcome tid env).2 <;> simp
      have hmain : List.Chain' (· ≤ ·)
          (proc_progress (loop_result tid env (initial_record tid fname now)).tr) := by
        unfold loop_result
        refine poll_loop_chain tid (download_from_webodm env.download)
          (env.polls.map check_webodm_task_status) _ _
          (by simp [loop_entry_record, rec_processing]) ?_ ?_ ?_
        · simp [loop_entry_trace, proc_progress, List.filter, initial_record, rec_extracting,
                rec_uploading, loop_entry_record, rec_processing]
        · simp [loop_entry_trace, proc_progress, List.filter, initial_record, rec_extracting,
                rec_uploading, loop_entry_record, rec_processing]
        · rw [List.chain'_cons']
          refine ⟨fun y _ => ?_, h⟩
          simp [loop_entry_record, rec_processing, rec_uploading, rec_extracting, initial_record]
      by_cases hB : (loop_result tid env (initial_record tid fname now)).broke
      · rw [process_task_loop_broke tid ap env _ b hE hT' hB]
        exact hmain
      · have hB' : (loop_result tid env (initial_record tid fname now)).broke = false := by
          revert hB; cases (loop_result tid env (initial_record tid fname now)).broke <;> simp
        rw [process_task_loop_stuck tid ap env _ b hE hT' hB']
        exact hmain

/-!
## Claim theorems
-/

/-- Claim C1: image discovery is claimed to search breadth-first from
the extraction root for the first directory containing an image file,
so that images in a subdirectory are discovered.  In the code the
discovery loop breaks after the first `os.walk` entry, so it always
returns the extraction root itself: on `c1_tree` (images only in the
subdirectory `images/`) the code picks the root with image count 0,
while the spec's breadth-first discovery finds the subdirectory with
count 1, and the run then fails with "No images found". -/
theorem c1_image_discovery_dead_code :
    (∀ (p : String) (d : Dir), find_image_folder p d = (p, d)) ∧
    find_image_folder "temp/t1" c1_tree = ("temp/t1", c1_tree) ∧
    (dirFiles (find_image_folder "temp/t1" c1_tree).2).countP is_image_file = 0 ∧
    find_image_folder_spec "temp/t1" c1_tree =
      some ("temp/t1/images", Dir.mk "images" ["photo1.jpg"] []) ∧
    (dirFiles (Dir.mk "images" ["photo1.jpg"] [])).countP is_image_file = 1 ∧
    image_count "t1" env_c1 = 0 ∧
    (process_task "t1" "uploads/t1.zip" env_c1
      (initial_record "t1" "a.zip" 0)).record.status = "failed" ∧
    (process_task "t1" "uploads/t1.zip" env_c1
      (initial_record "t1" "a.zip" 0)).record.message = "No images found" := by
  refine ⟨?_, rfl, by decide, ?_, by decide, by decide, by decide, by decide⟩
  · intro p d
    cases d with
    | mk n fs subs => simp [find_image_folder, osWalk]
  · have h1 : is_image_file "photo1.jpg" = true := by decide
    simp [find_image_folder_spec, bfs_find, c1_tree, dirName, h1]

/-- Claim C6: any exception raised inside the `try` body of
`process_task` is caught by the single top-level handler, which sets
the task's status to `failed` and its message to the exception's text,
so the run ends in a terminal state. -/
theorem c6_catch_all (tid ap : String) (env : ProcEnv) (t0 : TaskRecord)
    (e : String) (t : TaskRecord) (fl : Flags) (tr : List TaskRecord)
    (h : process_task_body tid ap env t0 = .raised e t fl tr) :
    (process_task tid ap env t0).record.status = "failed" ∧
    (process_task tid ap env t0).record.message = e ∧
    (process_task tid ap env t0).finished = true := by
  unfold process_task
  rw [h]
  exact ⟨rfl, rfl, rfl⟩

/-- Claim C6 witness: a failing zip extraction raises, and the handler
produces a `failed` record carrying the exception text. -/
theorem c6_catch_all_witness :
    (process_task "t" "uploads/t.zip" env_bad_zip (initial_record "t" "a.zip" 0)).record.status
      = "failed" ∧
    (process_task "t" "uploads/t.zip" env_bad_zip (initial_record "t" "a.zip" 0)).record.message
      = "Extraction failed: File is not a zip file" ∧
    (process_task "t" "uploads/t.zip" env_bad_zip (initial_record "t" "a.zip" 0)).finished
      = true :=
  c6_catch_all "t" "uploads/t.zip" env_bad_zip (initial_record "t" "a.zip" 0)
    "Extraction failed: File is not a zip file"
    (rec_extracting (initial_record "t" "a.zip" 0)) ⟨false, false⟩
    [initial_record "t" "a.zip" 0, rec_extracting (initial_record "t" "a.zip" 0)] (by decide)

/-- Claim C7: when extraction fails, the observable status sequence is
`queued, extracting, failed`, the final message is the extraction
error, and the `uploading` state is never observed. -/
theorem c7_extraction_failure (tid ap fname : String) (now : Nat) (env : ProcEnv) (e : String)
    (h : extract_archive ap env.zipRes env.rarRes = .error e) :
    (process_task tid ap env (initial_record tid fname now)).trace.map TaskRecord.status =
      ["queued", "extracting", "failed"] ∧
    (process_task tid ap env (initial_record tid fname now)).record.status = "failed" ∧
    (process_task tid ap env (initial_record tid fname now)).record.message = e ∧
    "uploading" ∉ (process_task tid ap env (initial_record tid fname now)).trace.map
      TaskRecord.status := by
  rw [process_task_extract_error tid ap env _ e h]
  refine ⟨?_, rfl, rfl, ?_⟩ <;>
    simp [initial_record, rec_extracting, rec_crashed]

/-- Claim C7 witness: a corrupt zip archive. -/
theorem c7_extraction_failure_witness :
    (process_task "t2" "uploads/t2.zip" env_bad_zip
        (initial_record "t2" "photos.zip" 0)).trace.map TaskRecord.status =
      ["queued", "extracting", "failed"] ∧
    (process_task "t2" "uploads/t2.zip" env_bad_zip
        (initial_record "t2" "photos.zip" 0)).record.message =
      "Extraction failed: File is not a zip file" := by
  have h := c7_extraction_failure "t2" "uploads/t2.zip" "photos.zip" 0 env_bad_zip
    "Extraction failed: File is not a zip file" rfl
  exact ⟨h.1, h.2.2.1⟩

/-- Claim C8: a submission whose filename does not end
(case-insensitively) in `.zip` or `.rar` is rejected with a 400 before
anything happens: nothing is written, the registry is unchanged, and no
task record or response is created. -/
theorem c8_reject_bad_extension (reg : Registry) (filename new_id : String) (now : Nat)
    (h : (str_endswith (str_lower filename) ".zip" ||
          str_endswith (str_lower filename) ".rar") = false) :
    upload_images reg filename new_id now =
      { error := some (400, "Only ZIP and RAR files are supported")
        saved_path := none, registry := reg, response := none } := by
  simp [upload_images, h]

/-- Claim C8 witness: a `.tar` upload is rejected. -/
theorem c8_reject_bad_extension_witness :
    upload_images [] "photos.tar" "id1" 0 =
      { error := some (400, "Only ZIP and RAR files are supported")
        saved_path := none, registry := [], response := none } :=
  c8_reject_bad_extension [] "photos.tar" "id1" 0 (by decide)


/-- Claim C2 counterexample: a run that fails with "No images found"
reaches the terminal state `failed` through the normal flow (early
return on upload error), yet neither the extraction directory nor the
uploaded archive is deleted. -/
theorem c2_cleanup_counterexample :
    (process_task "t" "uploads/t.zip" env_no_images (initial_record "t" "a.zip" 0)).finished
      = true ∧
    (process_task "t" "uploads/t.zip" env_no_images (initial_record "t" "a.zip" 0)).record.status
      = "failed" ∧
    (process_task "t" "uploads/t.zip" env_no_images
      (initial_record "t" "a.zip" 0)).flags.extract_dir_removed = false ∧
    (process_task "t" "uploads/t.zip" env_no_images
      (initial_record "t" "a.zip" 0)).flags.archive_removed = false := by
  decide

/-- Claim C2 (amended): the extraction directory and the archive are
deleted together, and this cleanup runs exactly when the run finished
after entering the polling loop (remote failed/canceled, download
failure, or successful completion); extraction errors and upload
errors/zero images reach `failed` without any cleanup. -/
theorem c2_cleanup_iff_loop_exit (tid ap fname : String) (now : Nat) (env : ProcEnv) :
    (process_task tid ap env (initial_record tid fname now)).flags.extract_dir_removed =
      (process_task tid ap env (initial_record tid fname now)).flags.archive_removed ∧
    ((process_task tid ap env (initial_record tid fname now)).flags.archive_removed = true ↔
      ((process_task tid ap env (initial_record tid fname now)).finished = true ∧
       ∃ r ∈ (process_task tid ap env (initial_record tid fname now)).trace,
         r.status = "processing")) := by
  cases hE : extract_archive ap env.zipRes env.rarRes with
  | error e =>
    rw [process_task_extract_error tid ap env _ e hE]
    refine ⟨rfl, ?_⟩
    constructor
    · intro h; simp at h
    · intro hx
      obtain ⟨-, r, hr, hs⟩ := hx
      simp at hr
      rcases hr with h | h | h <;> subst h <;>
        simp [initial_record, rec_extracting, rec_crashed] at hs
  | ok b =>
    by_cases hT : str_truthy (upload_outcome tid env).2
    · rw [process_task_upload_error tid ap env _ b hE hT]
      refine ⟨rfl, ?_⟩
      constructor
      · intro h; simp at h
      · intro hx
        obtain ⟨-, r, hr, hs⟩ := hx
        simp at hr
        rcases hr with h | h | h | h <;> subst h <;>
          simp [initial_record, rec_extracting, rec_uploading, rec_upload_failed] at hs
    · have hT' : str_truthy (upload_outcome tid env).2 = false := by
        revert hT; cases str_truthy (upload_outcome tid env).2 <;> simp
      by_cases hB : (loop_result tid env (initial_record tid fname now)).broke
      · rw [process_task_loop_broke tid ap env _ b hE hT' hB]
        refine ⟨rfl, ?_⟩
        simp only [true_and, true_iff]
        obtain ⟨s, hs⟩ := poll_loop_trace_ext tid (download_from_webodm env.download)
          (env.polls.map check_webodm_task_status)
          (loop_entry_record tid env (initial_record tid fname now))
          (loop_entry_trace tid env (initial_record tid fname now))
        refine ⟨loop_entry_record tid env (initial_record tid fname now), ?_,
          by simp [loop_entry_record, rec_processing]⟩
        unfold loop_result
        rw [hs]
        apply List.mem_append_left
        simp [loop_entry_trace]
      · have hB' : (loop_result tid env (initial_record tid fname now)).broke = false := by
          revert hB; cases (loop_result tid env (initial_record tid fname now)).broke <;> simp
        rw [process_task_loop_stuck tid ap env _ b hE hT' hB']
        refine ⟨rfl, ?_⟩
        constructor
        · intro h; simp at h
        · rintro ⟨h, -⟩; simp at h

/-- Claim C3 counterexample: with a remote that reports progress 50 and
then 30 under a non-terminal status code, the task's progress decreases
from 50 to 30 while the status stays `processing`, contradicting the
claimed monotonicity. -/
theorem c3_progress_counterexample :
    (process_task "t" "uploads/t.zip" env_decreasing (initial_record "t" "a.zip" 0)).trace.map
        (fun r => (r.status, r.progress)) =
      [("queued", 0), ("extracting", 0), ("uploading", 0), ("processing", 0),
       ("processing", 50), ("processing", 30)] ∧
    proc_progress
      (process_task "t" "uploads/t.zip" env_decreasing (initial_record "t" "a.zip" 0)).trace =
      [0, 50, 30] ∧
    ¬ List.Chain' (· ≤ ·)
      (proc_progress
        (process_task "t" "uploads/t.zip" env_decreasing (initial_record "t" "a.zip" 0)).trace) := by
  refine ⟨by decide, by decide, ?_⟩
  intro h
  rw [show proc_progress
      (process_task "t" "uploads/t.zip" env_decreasing (initial_record "t" "a.zip" 0)).trace =
      [0, 50, 30] from by decide] at h
  have h2 := (List.chain'_cons.mp (List.chain'_cons.mp h).2).1
  omega

/-- Claim C3 (amended): progress is 0 at creation and exactly 100 on
every snapshot whose status is `completed`; while `processing` the
progress values follow the remote's reports verbatim, so they are
non-decreasing provided the remote's reported values are non-decreasing
(the code does not enforce this). -/
theorem c3_progress (tid ap fname : String) (now : Nat) (env : ProcEnv) :
    (initial_record tid fname now).progress = 0 ∧
    (∀ r ∈ (process_task tid ap env (initial_record tid fname now)).trace,
       r.status = "completed" → r.progress = 100) ∧
    (List.Chain' (· ≤ ·) (polled_progress (env.polls.map check_webodm_task_status)) →
      List.Chain' (· ≤ ·)
        (proc_progress (process_task tid ap env (initial_record tid fname now)).trace)) :=
  ⟨rfl, fun r hr => (process_task_trace_inv tid ap fname now env r hr).2,
   process_task_chain tid ap fname now env⟩

/-- Claim C3 witness: the successful run of `env_success`. -/
theorem c3_progress_witness :
    (initial_record "tid1" "photos.zip" 5).progress = 0 ∧
    completed_record.progress = 100 ∧
    List.Chain' (· ≤ ·)
      (proc_progress (process_task "tid1" "uploads/tid1.zip" env_success
        (initial_record "tid1" "photos.zip" 5)).trace) := by
  have h := c3_progress "tid1" "uploads/tid1.zip" "photos.zip" 5 env_success
  have hc : List.Chain' (· ≤ ·)
      (polled_progress (env_success.polls.map check_webodm_task_status)) := by
    rw [show polled_progress (env_success.polls.map check_webodm_task_status) = [40, 95] from
      by decide]
    exact List.chain'_cons.mpr ⟨by omega, List.chain'_singleton _⟩
  exact ⟨h.1, h.2.1 completed_record (by decide) (by decide), h.2.2 hc⟩

/-- Claim C4: in each polling cycle, an absent poll result (transport
failure or non-success response) leaves the record unchanged and the
loop continues — with no bound on how many times; code 40 moves the
task to `downloading` and ends the loop; codes 30 and 50 end the loop
with `failed` and the corresponding message; every other code only
updates progress, keeps the status, and continues polling. -/
theorem c4_polling_cycle (tid : String) (dOk : Bool) (t : TaskRecord) (sd : PollResult)
    (rest : List (Option PollResult)) (tr : List TaskRecord) (n : Nat) (c : Nat) :
    check_webodm_task_status (.status c) = none ∧
    check_webodm_task_status .exn = none ∧
    poll_step tid dOk t none = ⟨t, [], false⟩ ∧
    poll_loop tid dOk (none :: rest) t tr = poll_loop tid dOk rest t tr ∧
    poll_loop tid dOk (List.replicate n none) t tr = ⟨t, tr, false⟩ ∧
    (sd.status_code = 40 →
       (poll_step tid dOk t (some sd)).snaps.head?.map TaskRecord.status =
         some "downloading" ∧
       (poll_step tid dOk t (some sd)).broke = true) ∧
    (sd.status_code = 30 →
       poll_step tid dOk t (some sd) =
         ⟨{ t with progress := sd.progress, status := "failed", message := "Processing failed" },
          [{ t with progress := sd.progress, status := "failed", message := "Processing failed" }],
          true⟩) ∧
    (sd.status_code = 50 →
       poll_step tid dOk t (some sd) =
         ⟨{ t with progress := sd.progress, status := "failed", message := "Task canceled" },
          [{ t with progress := sd.progress, status := "failed", message := "Task canceled" }],
          true⟩) ∧
    (sd.status_code ≠ 40 → sd.status_code ≠ 30 → sd.status_code ≠ 50 →
       poll_step tid dOk t (some sd) =
         ⟨{ t with progress := sd.progress }, [{ t with progress := sd.progress }], false⟩ ∧
       poll_loop tid dOk (some sd :: rest) t tr =
         poll_loop tid dOk rest { t with progress := sd.progress }
           (tr ++ [{ t with progress := sd.progress }])) := by
  refine ⟨rfl, rfl, rfl, ?_, poll_loop_replicate_none tid dOk n t tr, ?_, ?_, ?_, ?_⟩
  · simp [poll_loop, poll_step]
  · intro h
    cases dOk <;> simp [poll_step, h]
  · intro h
    simp [poll_step, h]
  · intro h
    simp [poll_step, h]
  · intro h1 h2 h3
    constructor
    · simp [poll_step, h1, h2, h3]
    · simp [poll_loop, poll_step, h1, h2, h3]

/-- Claim C4 witness: concrete cycles for absence, a failed code, and
the completed code. -/
theorem c4_polling_cycle_witness :
    poll_step "t" true (initial_record "t" "a.zip" 0) none =
      ⟨initial_record "t" "a.zip" 0, [], false⟩ ∧
    poll_step "t" true (initial_record "t" "a.zip" 0) (some ⟨30, 7⟩) =
      ⟨{ initial_record "t" "a.zip" 0 with
           progress := 7, status := "failed", message := "Processing failed" },
       [{ initial_record "t" "a.zip" 0 with
           progress := 7, status := "failed", message := "Processing failed" }], true⟩ ∧
    (poll_step "t" true (initial_record "t" "a.zip" 0) (some ⟨40, 9⟩)).snaps.head?.map
      TaskRecord.status = some "downloading" := by
  have h1 := c4_polling_cycle "t" true (initial_record "t" "a.zip" 0) ⟨30, 7⟩ [] [] 0 500
  have h2 := c4_polling_cycle "t" true (initial_record "t" "a.zip" 0) ⟨40, 9⟩ [] [] 0 500
  exact ⟨h1.2.2.1, h1.2.2.2.2.2.2.1 (by decide),
    (h2.2.2.2.2.2.1 (by decide)).1⟩

/-- Claim C5: on every snapshot of every run started from a fresh
record, the output file is recorded if and only if the status is
`completed`; in particular no `failed` snapshot ever carries an output
path. -/
theorem c5_output_iff_completed (tid ap fname : String) (now : Nat) (env : ProcEnv) :
    ∀ r ∈ (process_task tid ap env (initial_record tid fname now)).trace,
      (r.output_file.isSome = true ↔ r.status = "completed") :=
  fun r hr => (process_task_trace_inv tid ap fname now env r hr).1

/-- Claim C5 witness: the completed record of the successful run, and
its initial record. -/
theorem c5_output_iff_completed_witness :
    (completed_record.output_file.isSome = true ↔ completed_record.status = "completed") ∧
    ((initial_record "tid1" "photos.zip" 5).output_file.isSome = true ↔
      (initial_record "tid1" "photos.zip" 5).status = "completed") := by
  have h := c5_output_iff_completed "tid1" "uploads/tid1.zip" "photos.zip" 5 env_success
  exact ⟨h completed_record (by decide), h (initial_record "tid1" "photos.zip" 5) (by decide)⟩


/-- Claim C9: the download route returns 404 for an unknown id, a 400
naming the current status for a known but not-`completed` task, 404
when the recorded output file is absent or missing from disk, and
otherwise a zip `FileResponse` named `orthomosaic_<task_id>.zip`. -/
theorem c9_download (reg : Registry) (fs : List String) (tid : String) :
    (lookup reg tid = none →
       download_result reg fs tid = .httpError 404 "Task not found") ∧
    (∀ t, lookup reg tid = some t → t.status ≠ "completed" →
       download_result reg fs tid = .httpError 400 ("Status: " ++ t.status)) ∧
    (∀ t, lookup reg tid = some t → t.status = "completed" → t.output_file = none →
       download_result reg fs tid = .httpError 404 "File not found") ∧
    (∀ t p, lookup reg tid = some t → t.status = "completed" → t.output_file = some p →
       p ∉ fs →
       download_result reg fs tid = .httpError 404 "File not found") ∧
    (∀ t p, lookup reg tid = some t → t.status = "completed" → t.output_file = some p →
       p ∈ fs →
       download_result reg fs tid =
         .fileResponse p "application/zip" ("orthomosaic_" ++ tid ++ ".zip")) := by
  refine ⟨?_, ?_, ?_, ?_, ?_⟩
  · intro h
    simp [download_result, h]
  · intro t h hs
    simp [download_result, h, hs]
  · intro t h hs ho
    simp [download_result, h, hs, ho]
  · intro t p h hs ho hc
    simp [download_result, h, hs, ho, hc]
  · intro t p h hs ho hc
    simp [download_result, h, hs, ho, hc]

/-- Claim C9 witness: a completed task with its output on disk streams
the generated filename; an unknown id is a 404. -/
theorem c9_download_witness :
    download_result [("a", c9_record)] ["outputs/a.zip"] "a" =
      .fileResponse "outputs/a.zip" "application/zip" ("orthomosaic_" ++ "a" ++ ".zip") ∧
    download_result [] [] "missing" = .httpError 404 "Task not found" := by
  have h1 := c9_download [("a", c9_record)] ["outputs/a.zip"] "a"
  have h2 := c9_download [] [] "missing"
  exact ⟨h1.2.2.2.2 c9_record "outputs/a.zip" (by decide) (by decide) (by decide) (by decide),
    h2.1 (by decide)⟩

/-- Claim C10: the list route returns the raw registry records
verbatim — in particular each record's `webodm_task_id` and
`output_file` fields appear unchanged in the response, unlike in the
`TaskStatus` projection of the status route — together with `total`
equal to the number of registered tasks. -/
theorem c10_list_tasks (reg : Registry) :
    (list_tasks reg).total = reg.length ∧
    (list_tasks reg).tasks = reg.map (fun p => p.2) ∧
    (∀ id t, (id, t) ∈ reg →
      ∃ u ∈ (list_tasks reg).tasks,
        u.webodm_task_id = t.webodm_task_id ∧ u.output_file = t.output_file ∧ u = t) := by
  refine ⟨rfl, rfl, fun id t h => ⟨t, ?_, rfl, rfl, rfl⟩⟩
  exact List.mem_map.mpr ⟨(id, t), h, rfl⟩

/-- Claim C10 witness: a one-task registry whose record carries a
remote id and an output path. -/
theorem c10_list_tasks_witness :
    (list_tasks [("a", c9_record)]).total = [("a", c9_record)].length ∧
    ∃ u ∈ (list_tasks [("a", c9_record)]).tasks,
      u.webodm_task_id = c9_record.webodm_task_id ∧
      u.output_file = c9_record.output_file ∧ u = c9_record := by
  have h := c10_list_tasks [("a", c9_record)]
  exact ⟨h.1, h.2.2 "a" c9_record (by decide)⟩


end ODM
